import Mathlib

/-!
Shallow embedding of the TubeSim incremental-game core (src/src/App.tsx, the
shared type declarations, and the score endpoint of src/server.ts).

JavaScript numbers are modelled as exact rationals (`ℚ`); `Math.floor` is
`Int.floor`, `Math.pow` with a natural exponent is `^`, `Math.min`/`Math.max`
are `min`/`max`.  Code that can throw is modelled with `Option` (`none` = the
handler throws).  All state mutation is explicit state passing.
-/

namespace TubeSim

/-- The `type` discriminator of an upgrade (`'views' | 'money' | 'subscribers'`
from the `Upgrade` interface). -/
inductive UpgradeType where
  | views
  | money
  | subscribers
deriving DecidableEq, Repr

/-- The `Upgrade` interface (types file): id, baseCost, multiplier, type,
value, level.  The presentation-only fields `name`, `description`, `icon` are
omitted (never read by the core logic). -/
structure Upgrade where
  id : String
  baseCost : ℚ
  multiplier : ℚ
  type : UpgradeType
  value : ℚ
  level : ℕ
deriving DecidableEq, Repr

/-- The `ContentType` interface: id, baseViews, baseMoney, duration (seconds),
unlockedAtSubs.  The presentation-only field `name` is omitted. -/
structure ContentType where
  id : String
  baseViews : ℚ
  baseMoney : ℚ
  duration : ℚ
  unlockedAtSubs : ℚ
deriving DecidableEq, Repr

/-- The `GameState` interface: views, subscribers, money, totalViews,
totalMoney, upgrades, unlockedContentTypes, lastSaved. -/
structure GameState where
  views : ℚ
  subscribers : ℚ
  money : ℚ
  totalViews : ℚ
  totalMoney : ℚ
  upgrades : List Upgrade
  unlockedContentTypes : List String
  lastSaved : ℕ
deriving DecidableEq, Repr

/-- The `activeVideo` record (`App.tsx` line 59): `id`, `progress`,
`startTime`.  `startTime` is only read by a dead local computation in the
production loop (the local `progress` at line 168 is computed from `elapsed`
and then never used), so it carries no behaviour. -/
structure ActiveVideo where
  id : String
  progress : ℚ
  startTime : ℕ
deriving DecidableEq, Repr

/-- `getPassiveViews` (`App.tsx` lines 82-86): sum of `value * level` over
upgrades of type `views`, via `reduce` with initial accumulator 0. -/
def getPassiveViews (g : GameState) : ℚ :=
  (g.upgrades.filter (fun u => u.type = UpgradeType.views)).foldl
    (fun acc u => acc + u.value * (u.level : ℚ)) 0

/-- `getPassiveSubs` (`App.tsx` lines 88-92): sum of `value * level` over
upgrades of type `subscribers`, via `reduce` with initial accumulator 0. -/
def getPassiveSubs (g : GameState) : ℚ :=
  (g.upgrades.filter (fun u => u.type = UpgradeType.subscribers)).foldl
    (fun acc u => acc + u.value * (u.level : ℚ)) 0

/-- `getMoneyMultiplier` (`App.tsx` lines 94-99): `reduce` of `value * level`
over upgrades of type `money`, with initial accumulator 1. -/
def getMoneyMultiplier (g : GameState) : ℚ :=
  (g.upgrades.filter (fun u => u.type = UpgradeType.money)).foldl
    (fun acc u => acc + u.value * (u.level : ℚ)) 1

/-- One 100 ms tick of the passive-generation loop (`App.tsx` lines 102-116):
`passiveViews = getPassiveViews() / 10`, `passiveSubs = getPassiveSubs() / 10`,
added to `views`/`totalViews`/`subscribers`.  The callback reads no viral
state. -/
def passiveTick (g : GameState) : GameState :=
  { g with
    views := g.views + getPassiveViews g / 10
    totalViews := g.totalViews + getPassiveViews g / 10
    subscribers := g.subscribers + getPassiveSubs g / 10 }

/-- The boost factor of the production completion branch
(`App.tsx` line 173): `isViral ? 3 : 1`. -/
def viralBoost (isViral : Bool) : ℚ :=
  if isViral then 3 else 1

/-- `viewsGained` of the completion branch (`App.tsx` line 174):
`contentType.baseViews * (1 + getPassiveViews() * 0.1) * boost`. -/
def completionViews (g : GameState) (c : ContentType) (isViral : Bool) : ℚ :=
  c.baseViews * (1 + getPassiveViews g * (1 / 10)) * viralBoost isViral

/-- `moneyGained` of the completion branch (`App.tsx` line 175):
`contentType.baseMoney * getMoneyMultiplier() * boost`. -/
def completionMoney (g : GameState) (c : ContentType) (isViral : Bool) : ℚ :=
  c.baseMoney * getMoneyMultiplier g * viralBoost isViral

/-- `subsGained` of the completion branch (`App.tsx` line 176):
`Math.max(0, (viewsGained * 0.05) * (1 + getPassiveSubs() * 0.1))`. -/
def completionSubs (g : GameState) (c : ContentType) (isViral : Bool) : ℚ :=
  max 0 (completionViews g c isViral * (5 / 100) * (1 + getPassiveSubs g * (1 / 10)))

/-- One 100 ms tick of the production loop (`App.tsx` lines 158-199) while a
video is active.  The source looks the content type up from the catalog; if it
is missing the effect installs no interval, so the state is unchanged.  If
`progress >= 100` the yield is committed to the ledger, a notification is
appended and the job is cleared (`return null`); otherwise progress grows by
`(0.1 / duration) * 100`, clamped to 100.  The local `progress` computed at
line 168 from `elapsed` is dead (never read) and is not modelled. -/
def productionTick (catalog : List ContentType) (isViral : Bool)
    (g : GameState) (av : ActiveVideo) (notifs : List String) :
    GameState × Option ActiveVideo × List String :=
  match catalog.find? (fun c => c.id = av.id) with
  | none => (g, some av, notifs)
  | some c =>
    if av.progress ≥ 100 then
      let viewsGained := completionViews g c isViral
      let moneyGained := completionMoney g c isViral
      let subsGained := completionSubs g c isViral
      let g' := { g with
        views := g.views + viewsGained
        totalViews := g.totalViews + viewsGained
        money := g.money + moneyGained
        totalMoney := g.totalMoney + moneyGained
        subscribers := g.subscribers + subsGained }
      let msg := (if isViral then "VIRAL " else "") ++ "Video published! +" ++
        toString viewsGained.floor ++ " views"
      (g', none, notifs ++ [msg])
    else
      (g, some { av with progress := min (av.progress + (1 / 10) / c.duration * 100) 100 },
        notifs)

/-- `manualEdit` (`App.tsx` lines 144-155): no-op when no video is active or
the content id is unknown; otherwise adds `(0.5 / duration) * 100` percentage
points, clamped by `Math.min(·, 99.9)`. -/
def manualEdit (catalog : List ContentType) (av : Option ActiveVideo) :
    Option ActiveVideo :=
  match av with
  | none => none
  | some prev =>
    match catalog.find? (fun c => c.id = prev.id) with
    | none => some prev
    | some c =>
      some { prev with
        progress := min (prev.progress + (1 / 2) / c.duration * 100) (999 / 10) }

/-- Iterated manual edits. -/
def iterEdits (catalog : List ContentType) : ℕ → Option ActiveVideo → Option ActiveVideo
  | 0, av => av
  | n + 1, av => iterEdits catalog n (manualEdit catalog av)

/-- `startVideo` (`App.tsx` lines 201-204): no-op while a video is active;
otherwise sets `activeVideo = \x7b id, progress: 0, startTime: Date.now() \x7d`. -/
def startVideo (av : Option ActiveVideo) (id : String) (now : ℕ) :
    Option ActiveVideo :=
  match av with
  | some j => some j
  | none => some { id := id, progress := 0, startTime := now }

/-- The start action as the UI exposes it (`App.tsx` lines 545-573 together
with `startVideo`): the RECORD button for a content item is rendered only when
`subscribers >= unlockedAtSubs` (`isLocked` check, line 546) and is disabled
while a video is active (line 568), so a locked item or a busy state leaves
everything unchanged. -/
def startVideoUI (catalog : List ContentType) (g : GameState)
    (av : Option ActiveVideo) (id : String) (now : ℕ) : Option ActiveVideo :=
  match catalog.find? (fun c => c.id = id) with
  | none => av
  | some c =>
    if g.subscribers < c.unlockedAtSubs then av
    else if av.isSome then av
    else startVideo av id now

/-- The purchase price of an upgrade at a given level (`App.tsx` line 210 and
line 590): `Math.floor(baseCost * Math.pow(multiplier, level))`. -/
def upgradeCost (baseCost multiplier : ℚ) (level : ℕ) : ℤ :=
  ⌊baseCost * multiplier ^ level⌋

/-- `buyUpgrade` (`App.tsx` lines 206-224): finds the upgrade via `findIndex`;
when the id is unknown the source reads `prev.upgrades[-1].baseCost`, i.e.
dereferences `undefined` and throws a TypeError — modelled as `none`.  For a
known id: if `money >= cost` deduct the cost and bump that upgrade's level,
otherwise return the state unchanged. -/
def buyUpgrade (upgradeId : String) (g : GameState) : Option GameState :=
  match g.upgrades.findIdx? (fun u => u.id = upgradeId) with
  | none => none
  | some i =>
    match g.upgrades.get? i with
    | none => none
    | some u =>
      let cost := upgradeCost u.baseCost u.multiplier u.level
      if (cost : ℚ) ≤ g.money then
        some { g with
          money := g.money - (cost : ℚ)
          upgrades := g.upgrades.set i { u with level := u.level + 1 } }
      else
        some g

/-- Modelled from the spec: the first entry of the static upgrade catalog
(`src/constants.ts` is not part of the repository snapshot; only its import
is).  Per the spec's data model every upgrade has a positive `baseCost`, a
growth `multiplier > 1`, a category, a per-level `value`, and a `level` that
starts at 0; the spec's cost scenario uses `baseCost = 10`,
`multiplier = 1.15`. -/
def cameraUpgrade : Upgrade :=
  { id := "camera", baseCost := 10, multiplier := 23 / 20,
    type := UpgradeType.views, value := 1, level := 0 }

/-- Modelled from the spec: the static upgrade catalog `INITIAL_UPGRADES`
(`src/constants.ts` is not part of the repository snapshot).  The icon map of
`App.tsx` names five upgrades; each starts at level 0 with `baseCost > 0` and
`multiplier > 1`, covering the three categories. -/
def INITIAL_UPGRADES : List Upgrade :=
  [ cameraUpgrade,
    { id := "mic", baseCost := 50, multiplier := 23 / 20,
      type := UpgradeType.subscribers, value := 1 / 10, level := 0 },
    { id := "lights", baseCost := 100, multiplier := 23 / 20,
      type := UpgradeType.money, value := 1 / 2, level := 0 },
    { id := "editing", baseCost := 250, multiplier := 23 / 20,
      type := UpgradeType.views, value := 5, level := 0 },
    { id := "cpu", baseCost := 1000, multiplier := 23 / 20,
      type := UpgradeType.money, value := 2, level := 0 } ]

/-- Modelled from the spec: the default content item `'vlog'` (the initially
unlocked id, `App.tsx` line 54).  `src/constants.ts` is not part of the
repository snapshot; the spec's production scenario gives the item
`duration = 60` seconds and `baseViews = 100`, unlocked from the start. -/
def vlogContent : ContentType :=
  { id := "vlog", baseViews := 100, baseMoney := 10,
    duration := 60, unlockedAtSubs := 0 }

/-- Modelled from the spec: a later catalog entry gated by a subscriber
threshold (`unlockedAtSubscribers`), per the spec's content data model. -/
def tutorialContent : ContentType :=
  { id := "tutorial", baseViews := 500, baseMoney := 50,
    duration := 120, unlockedAtSubs := 100 }

/-- Modelled from the spec: the static content catalog `CONTENT_TYPES`
(`src/constants.ts` is not part of the repository snapshot). -/
def CONTENT_TYPES : List ContentType :=
  [vlogContent, tutorialContent]

/-- The fixed initial game state (`App.tsx` lines 47-56). -/
def defaultGameState (now : ℕ) : GameState :=
  { views := 0
    subscribers := 0
    money := 0
    totalViews := 0
    totalMoney := 0
    upgrades := INITIAL_UPGRADES
    unlockedContentTypes := ["vlog"]
    lastSaved := now }

/-- The state initializer (`App.tsx` lines 38-57): `none` models an absent
`localStorage` entry, `some none` a present entry whose `JSON.parse` throws
(the catch discards it), `some (some s)` a successfully parsed state. -/
def loadState (saved : Option (Option GameState)) (now : ℕ) : GameState :=
  match saved with
  | some (some s) => s
  | some none => defaultGameState now
  | none => defaultGameState now

/-- A row of the `users` table (`server/db.js` schema). -/
structure UserRow where
  id : ℕ
  username : String
  password : String
  subscribers : ℚ
  views : ℚ
deriving DecidableEq, Repr

/-- The `/api/score/update` handler (`server.ts` lines 39-44): runs
`UPDATE users SET subscribers = ?, views = ? WHERE id = ?` and then
unconditionally responds `\x7b success: true \x7d`.  The returned `Bool` is the
`success` field of the response; the update rewrites every row whose id
matches (possibly zero rows). -/
def scoreUpdate (db : List UserRow) (userId : ℕ) (subscribers views : ℚ) :
    List UserRow × Bool :=
  (db.map (fun u =>
    if u.id = userId then { u with subscribers := subscribers, views := views } else u),
   true)

/-- The combined per-tick state of the production loop: the ledger, the
optional active video, and the notification texts enqueued so far. -/
abbrev ProdState := GameState × Option ActiveVideo × List String

/-- One scheduler tick of the production loop: when no video is active the
interval is not installed (`App.tsx` line 159), so nothing happens. -/
def tickStep (catalog : List ContentType) (isViral : Bool) (s : ProdState) :
    ProdState :=
  match s with
  | (g, none, ns) => (g, none, ns)
  | (g, some av, ns) => productionTick catalog isViral g av ns

/-- Runs `n` scheduler ticks of the production loop. -/
def runTicks (catalog : List ContentType) (isViral : Bool) :
    ℕ → ProdState → ProdState
  | 0, s => s
  | n + 1, s => runTicks catalog isViral n (tickStep catalog isViral s)

/-- The production-loop state right after starting a `'vlog'` video from the
fresh default state. -/
def startProd : ProdState :=
  (defaultGameState 0,
   startVideoUI CONTENT_TYPES (defaultGameState 0) none "vlog" 0,
   [])

/-! Helper lemmas shared by the theorems below. -/

lemma productionTick_complete (catalog : List ContentType) (isViral : Bool)
    (g : GameState) (av : ActiveVideo) (ns : List String) (c : ContentType)
    (hc : catalog.find? (fun x => x.id = av.id) = some c)
    (hp : av.progress ≥ 100) :
    productionTick catalog isViral g av ns =
      ({ g with
          views := g.views + completionViews g c isViral
          totalViews := g.totalViews + completionViews g c isViral
          money := g.money + completionMoney g c isViral
          totalMoney := g.totalMoney + completionMoney g c isViral
          subscribers := g.subscribers + completionSubs g c isViral },
        none,
        ns ++ [(if isViral then "VIRAL " else "") ++ "Video published! +" ++
          toString (completionViews g c isViral).floor ++ " views"]) := by
  unfold productionTick
  simp only [hc]
  rw [if_pos hp]

lemma productionTick_advance (catalog : List ContentType) (isViral : Bool)
    (g : GameState) (av : ActiveVideo) (ns : List String) (c : ContentType)
    (hc : catalog.find? (fun x => x.id = av.id) = some c)
    (hp : av.progress < 100) :
    productionTick catalog isViral g av ns =
      (g, some { av with progress := min (av.progress + (1 / 10) / c.duration * 100) 100 },
        ns) := by
  unfold productionTick
  simp only [hc]
  rw [if_neg (not_le.mpr hp)]

/-- C1: when the production loop's per-tick completion check observes
`progress >= 100`, the yield committed to the ledger is
`viewsGained = baseViews * (1 + passiveViewRate * 0.1) * viralBoost` and
`moneyGained = baseMoney * moneyMultiplier * viralBoost` with `viralBoost = 3`
if the viral event is active and 1 otherwise, and `subscribersGained =
max 0 (viewsGained * 0.05 * (1 + passiveSubscriberRate * 0.1))`; a
notification is enqueued and the job transitions to Idle (`activeVideo`
becomes `none`). -/
theorem completion_yield_spec (catalog : List ContentType) (isViral : Bool)
    (g : GameState) (av : ActiveVideo) (ns : List String) (c : ContentType)
    (hc : catalog.find? (fun x => x.id = av.id) = some c)
    (hp : av.progress ≥ 100) :
    (productionTick catalog isViral g av ns).1.views =
      g.views + c.baseViews * (1 + getPassiveViews g * (1 / 10)) *
        (if isViral then 3 else 1) ∧
    (productionTick catalog isViral g av ns).1.money =
      g.money + c.baseMoney * getMoneyMultiplier g * (if isViral then 3 else 1) ∧
    (productionTick catalog isViral g av ns).1.subscribers =
      g.subscribers + max 0 (c.baseViews * (1 + getPassiveViews g * (1 / 10)) *
        (if isViral then 3 else 1) * (5 / 100) * (1 + getPassiveSubs g * (1 / 10))) ∧
    (productionTick catalog isViral g av ns).2.1 = none ∧
    (productionTick catalog isViral g av ns).2.2.length = ns.length + 1 := by
  rw [productionTick_complete catalog isViral g av ns c hc hp]
  exact ⟨rfl, rfl, rfl, rfl, by simp⟩

theorem completion_yield_spec_witness :
    (productionTick CONTENT_TYPES false (defaultGameState 0) ⟨"vlog", 100, 0⟩ []).1.views =
      (defaultGameState 0).views + vlogContent.baseViews *
        (1 + getPassiveViews (defaultGameState 0) * (1 / 10)) * (if false then 3 else 1) ∧
    (productionTick CONTENT_TYPES false (defaultGameState 0) ⟨"vlog", 100, 0⟩ []).1.money =
      (defaultGameState 0).money + vlogContent.baseMoney *
        getMoneyMultiplier (defaultGameState 0) * (if false then 3 else 1) ∧
    (productionTick CONTENT_TYPES false (defaultGameState 0) ⟨"vlog", 100, 0⟩ []).1.subscribers =
      (defaultGameState 0).subscribers + max 0 (vlogContent.baseViews *
        (1 + getPassiveViews (defaultGameState 0) * (1 / 10)) * (if false then 3 else 1) *
        (5 / 100) * (1 + getPassiveSubs (defaultGameState 0) * (1 / 10))) ∧
    (productionTick CONTENT_TYPES false (defaultGameState 0) ⟨"vlog", 100, 0⟩ []).2.1 = none ∧
    (productionTick CONTENT_TYPES false (defaultGameState 0) ⟨"vlog", 100, 0⟩ []).2.2.length =
      ([] : List String).length + 1 :=
  completion_yield_spec CONTENT_TYPES false (defaultGameState 0) ⟨"vlog", 100, 0⟩ []
    vlogContent rfl (by norm_num)

/-- C5: the viral boost multiplies the production yield committed on
completion by exactly 3 while the viral event is active and by 1 otherwise,
while the passive per-tick accrual of the 100 ms scheduler adds
`getPassiveViews / 10` views and `getPassiveSubs / 10` subscribers as a
function of the ledger alone — the passive callback reads no viral state. -/
theorem viral_boost_yield_only (catalog : List ContentType) (g : GameState)
    (av : ActiveVideo) (ns : List String) (c : ContentType)
    (hc : catalog.find? (fun x => x.id = av.id) = some c)
    (hp : av.progress ≥ 100) :
    (productionTick catalog true g av ns).1.views - g.views =
      3 * ((productionTick catalog false g av ns).1.views - g.views) ∧
    (productionTick catalog true g av ns).1.money - g.money =
      3 * ((productionTick catalog false g av ns).1.money - g.money) ∧
    (∀ g0 : GameState, (passiveTick g0).views - g0.views = getPassiveViews g0 / 10 ∧
      (passiveTick g0).subscribers - g0.subscribers = getPassiveSubs g0 / 10) := by
  rw [productionTick_complete catalog true g av ns c hc hp,
      productionTick_complete catalog false g av ns c hc hp]
  refine ⟨?_, ?_, fun g0 => ⟨?_, ?_⟩⟩ <;>
    simp [completionViews, completionMoney, viralBoost, passiveTick] <;> ring

/-- A ledger state with enough money to afford the first upgrade. -/
def richState : GameState :=
  { defaultGameState 0 with money := 100 }

/-- C2 counterexample: with `baseCost = 1 > 0` and `multiplier = 3/2 > 1`
the purchase price is not strictly increasing in the level, since
`floor(1 * (3/2)^0) = 1 = floor(1 * (3/2)^1)`. -/
theorem upgrade_cost_strictMono_cex :
    0 < (1 : ℚ) ∧ 1 < (3 / 2 : ℚ) ∧
      ¬ upgradeCost 1 (3 / 2) 0 < upgradeCost 1 (3 / 2) 1 := by
  refine ⟨by norm_num, by norm_num, ?_⟩
  norm_num [upgradeCost]

/-- C2 (amended): the price charged for an upgrade at level `L` is
`floor(baseCost * multiplier^L)` (the amount deducted by a successful
purchase), and the price is strictly increasing in `L` provided additionally
`baseCost * (multiplier - 1) >= 1` (with only `baseCost > 0` and
`multiplier > 1` consecutive floors can coincide). -/
theorem upgrade_price_floor_strictMono (g : GameState) (id : String) (i : ℕ)
    (u : Upgrade)
    (hi : g.upgrades.findIdx? (fun x => x.id = id) = some i)
    (hu : g.upgrades.get? i = some u)
    (haff : (upgradeCost u.baseCost u.multiplier u.level : ℚ) ≤ g.money)
    (hb : 0 < u.baseCost) (hm : 1 < u.multiplier)
    (hbm : 1 ≤ u.baseCost * (u.multiplier - 1)) :
    (∃ g', buyUpgrade id g = some g' ∧
      g.money - g'.money = ((⌊u.baseCost * u.multiplier ^ u.level⌋ : ℤ) : ℚ)) ∧
    ∀ L : ℕ, upgradeCost u.baseCost u.multiplier L <
      upgradeCost u.baseCost u.multiplier (L + 1) := by
  constructor
  · refine ⟨{ g with
        money := g.money - (upgradeCost u.baseCost u.multiplier u.level : ℚ)
        upgrades := g.upgrades.set i { u with level := u.level + 1 } }, ?_, ?_⟩
    · unfold buyUpgrade
      simp only [hi, hu]
      rw [if_pos haff]
    · unfold upgradeCost
      ring
  · intro L
    have hpow : (1 : ℚ) ≤ u.multiplier ^ L := one_le_pow₀ hm.le
    have key : (1 : ℚ) * 1 ≤ u.baseCost * (u.multiplier - 1) * u.multiplier ^ L :=
      mul_le_mul hbm hpow (by norm_num) (le_trans (by norm_num) hbm)
    have expand : u.baseCost * (u.multiplier ^ L * u.multiplier) =
        u.baseCost * u.multiplier ^ L +
          u.baseCost * (u.multiplier - 1) * u.multiplier ^ L := by ring
    have hx1 : u.baseCost * u.multiplier ^ L + 1 ≤
        u.baseCost * u.multiplier ^ (L + 1) := by
      rw [pow_succ]
      linarith
    have hfl : ⌊u.baseCost * u.multiplier ^ L⌋ + 1 ≤
        ⌊u.baseCost * u.multiplier ^ (L + 1)⌋ := by
      apply Int.le_floor.mpr
      push_cast
      exact le_trans (by linarith [Int.floor_le (u.baseCost * u.multiplier ^ L)]) hx1
    unfold upgradeCost
    omega

theorem upgrade_price_floor_strictMono_witness :
    (buyUpgrade "camera" richState).isSome = true ∧
    upgradeCost cameraUpgrade.baseCost cameraUpgrade.multiplier 0 <
      upgradeCost cameraUpgrade.baseCost cameraUpgrade.multiplier 1 := by
  obtain ⟨⟨g', hg, hmoney⟩, hmono⟩ :=
    upgrade_price_floor_strictMono richState "camera" 0 cameraUpgrade rfl rfl
      (by norm_num [upgradeCost, cameraUpgrade, richState, defaultGameState])
      (by norm_num [cameraUpgrade]) (by norm_num [cameraUpgrade])
      (by norm_num [cameraUpgrade])
  exact ⟨by rw [hg]; rfl, hmono 0⟩

/-- C3: purchasing a known upgrade with `money < cost` leaves the whole state
unchanged; with `money >= cost` it deducts exactly the cost and bumps exactly
that upgrade's level by 1, all other fields and entries untouched; a
non-negative balance stays non-negative. -/
theorem buyUpgrade_guarded (g : GameState) (id : String) (i : ℕ) (u : Upgrade)
    (hi : g.upgrades.findIdx? (fun x => x.id = id) = some i)
    (hu : g.upgrades.get? i = some u) :
    (g.money < (upgradeCost u.baseCost u.multiplier u.level : ℚ) →
      buyUpgrade id g = some g) ∧
    ((upgradeCost u.baseCost u.multiplier u.level : ℚ) ≤ g.money →
      buyUpgrade id g = some
        { g with
          money := g.money - (upgradeCost u.baseCost u.multiplier u.level : ℚ)
          upgrades := g.upgrades.set i { u with level := u.level + 1 } }) ∧
    (0 ≤ g.money → ∀ g', buyUpgrade id g = some g' → 0 ≤ g'.money) := by
  refine ⟨fun hlt => ?_, fun hle => ?_, fun hnn g' hg => ?_⟩
  · unfold buyUpgrade
    simp only [hi, hu]
    rw [if_neg (not_le.mpr hlt)]
  · unfold buyUpgrade
    simp only [hi, hu]
    rw [if_pos hle]
  · unfold buyUpgrade at hg
    simp only [hi, hu] at hg
    by_cases hle : (upgradeCost u.baseCost u.multiplier u.level : ℚ) ≤ g.money
    · rw [if_pos hle] at hg
      obtain rfl := Option.some.inj hg
      simpa using sub_nonneg.mpr hle
    · rw [if_neg hle] at hg
      obtain rfl := Option.some.inj hg
      exact hnn

theorem buyUpgrade_guarded_witness :
    buyUpgrade "camera" (defaultGameState 0) = some (defaultGameState 0) ∧
    (0 : ℚ) ≤ (defaultGameState 0).money := by
  have h := buyUpgrade_guarded (defaultGameState 0) "camera" 0 cameraUpgrade rfl rfl
  have h1 : buyUpgrade "camera" (defaultGameState 0) = some (defaultGameState 0) :=
    h.1 (by norm_num [upgradeCost, cameraUpgrade, defaultGameState])
  exact ⟨h1, h.2.2 (by norm_num [defaultGameState]) (defaultGameState 0) h1⟩

/-- C8 counterexample: calling the purchase handler with an id that matches
no upgrade makes the source dereference `undefined`
(`prev.upgrades[-1].baseCost`) and throw, modelled as `none` — it does not
return, so it neither is throw-free nor yields a success boolean. -/
theorem buyUpgrade_unknown_id_throws :
    buyUpgrade "ghost" (defaultGameState 0) = none := rfl

/-- C8 (amended): for ids that match an upgrade the purchase handler never
throws — it always produces an updated state (and no success boolean); only
an unknown id makes it throw. -/
theorem buyUpgrade_total_on_known (g : GameState) (id : String) (i : ℕ)
    (hi : g.upgrades.findIdx? (fun u => u.id = id) = some i) :
    ∃ g', buyUpgrade id g = some g' := by
  have hlen : i < g.upgrades.length :=
    (List.findIdx?_eq_some_iff_findIdx_eq.mp hi).1
  have hget : g.upgrades.get? i = some (g.upgrades.get ⟨i, hlen⟩) := by
    rw [List.get?_eq_getElem?, List.getElem?_eq_getElem hlen]
    rfl
  unfold buyUpgrade
  simp only [hi, hget]
  by_cases hle : (upgradeCost (g.upgrades.get ⟨i, hlen⟩).baseCost
      (g.upgrades.get ⟨i, hlen⟩).multiplier (g.upgrades.get ⟨i, hlen⟩).level : ℚ) ≤ g.money
  · exact ⟨_, by rw [if_pos hle]⟩
  · exact ⟨_, by rw [if_neg hle]⟩

theorem buyUpgrade_total_on_known_witness :
    (buyUpgrade "camera" (defaultGameState 0)).isSome = true := by
  obtain ⟨g', hg⟩ := buyUpgrade_total_on_known (defaultGameState 0) "camera" 0 rfl
  rw [hg]
  rfl

theorem viral_boost_yield_only_witness :
    ((productionTick CONTENT_TYPES true (defaultGameState 0) ⟨"vlog", 100, 0⟩ []).1.views -
        (defaultGameState 0).views =
      3 * ((productionTick CONTENT_TYPES false (defaultGameState 0) ⟨"vlog", 100, 0⟩ []).1.views -
        (defaultGameState 0).views)) ∧
    ((passiveTick (defaultGameState 0)).views - (defaultGameState 0).views =
      getPassiveViews (defaultGameState 0) / 10) :=
  ⟨(viral_boost_yield_only CONTENT_TYPES (defaultGameState 0) ⟨"vlog", 100, 0⟩ []
      vlogContent rfl (by norm_num)).1,
   ((viral_boost_yield_only CONTENT_TYPES (defaultGameState 0) ⟨"vlog", 100, 0⟩ []
      vlogContent rfl (by norm_num)).2.2 (defaultGameState 0)).1⟩

/-- C4: `start(contentId)` is a no-op while a job is already in progress; a
no-op while Idle when the target content's unlock threshold
(`subscribers >= unlockedAtSubs`) is not met; and while Idle on an unlocked
item it transitions to InProgress with progress 0. -/
theorem startVideo_guard (catalog : List ContentType) (g : GameState)
    (av : Option ActiveVideo) (id : String) (now : ℕ) (c : ContentType)
    (hc : catalog.find? (fun x => x.id = id) = some c) :
    (∀ j, av = some j → startVideoUI catalog g av id now = some j) ∧
    (av = none → g.subscribers < c.unlockedAtSubs →
      startVideoUI catalog g av id now = none) ∧
    (av = none → c.unlockedAtSubs ≤ g.subscribers →
      startVideoUI catalog g av id now = some ⟨id, 0, now⟩) := by
  refine ⟨fun j hj => ?_, fun hn hlock => ?_, fun hn hunlock => ?_⟩
  · subst hj
    unfold startVideoUI
    simp only [hc]
    by_cases hl : g.subscribers < c.unlockedAtSubs
    · rw [if_pos hl]
    · rw [if_neg hl]
      simp
  · subst hn
    unfold startVideoUI
    simp only [hc]
    rw [if_pos hlock]
  · subst hn
    unfold startVideoUI
    simp only [hc]
    rw [if_neg (not_lt.mpr hunlock)]
    simp [startVideo]

theorem startVideo_guard_witness :
    startVideoUI CONTENT_TYPES (defaultGameState 0) none "vlog" 5 =
      some ⟨"vlog", 0, 5⟩ :=
  (startVideo_guard CONTENT_TYPES (defaultGameState 0) none "vlog" 5 vlogContent
    rfl).2.2 rfl (by norm_num [vlogContent, defaultGameState])

lemma manualEdit_some (catalog : List ContentType) (prev : ActiveVideo) :
    manualEdit catalog (some prev) =
      match catalog.find? (fun c => c.id = prev.id) with
      | none => some prev
      | some c =>
        some { prev with
          progress := min (prev.progress + (1 / 2) / c.duration * 100) (999 / 10) } :=
  rfl

lemma manualEdit_preserves_lt (catalog : List ContentType)
    (av : Option ActiveVideo) (h : ∀ j, av = some j → j.progress < 100) :
    ∀ j', manualEdit catalog av = some j' → j'.progress < 100 := by
  intro j' hj'
  cases av with
  | none => simp [manualEdit] at hj'
  | some prev =>
    have hprev := h prev rfl
    rw [manualEdit_some] at hj'
    cases hfind : catalog.find? (fun c => c.id = prev.id) with
    | none =>
      rw [hfind] at hj'
      obtain rfl : prev = j' := Option.some.inj hj'
      exact hprev
    | some c =>
      rw [hfind] at hj'
      obtain rfl := Option.some.inj hj'
      exact lt_of_le_of_lt (min_le_right _ _) (by norm_num)

lemma iterEdits_lt (catalog : List ContentType) (n : ℕ) :
    ∀ av : Option ActiveVideo, (∀ j, av = some j → j.progress < 100) →
      ∀ j', iterEdits catalog n av = some j' → j'.progress < 100 := by
  induction n with
  | zero =>
    intro av h j' hj'
    exact h j' hj'
  | succ n ih =>
    intro av h j' hj'
    exact ih (manualEdit catalog av) (manualEdit_preserves_lt catalog av h) j' hj'

/-- C6: a manual edit on an active job adds exactly `(0.5/duration)*100`
percentage points, clamped at 99.9 so the result stays strictly below 100;
hence no sequence of manual edits alone ever reaches 100, and a production
tick that observes `progress < 100` credits nothing and enqueues nothing —
completion requires a scheduler tick observing `progress >= 100`. -/
theorem manualEdit_clamped (catalog : List ContentType) (j : ActiveVideo)
    (c : ContentType)
    (hc : catalog.find? (fun x => x.id = j.id) = some c) :
    manualEdit catalog (some j) =
      some { j with
        progress := min (j.progress + (1 / 2) / c.duration * 100) (999 / 10) } ∧
    (∀ j', manualEdit catalog (some j) = some j' → j'.progress < 100) ∧
    (j.progress < 100 → ∀ n j', iterEdits catalog n (some j) = some j' →
      j'.progress < 100) ∧
    (∀ (isViral : Bool) (g : GameState) (ns : List String), j.progress < 100 →
      (productionTick catalog isViral g j ns).1 = g ∧
      (productionTick catalog isViral g j ns).2.2 = ns) := by
  have h1 : manualEdit catalog (some j) =
      some { j with
        progress := min (j.progress + (1 / 2) / c.duration * 100) (999 / 10) } := by
    unfold manualEdit
    simp only [hc]
  refine ⟨h1, fun j' hj' => ?_, fun hlt n j' hj' => ?_, fun v g ns hlt => ?_⟩
  · rw [h1] at hj'
    obtain rfl := Option.some.inj hj'
    exact lt_of_le_of_lt (min_le_right _ _) (by norm_num)
  · refine iterEdits_lt catalog n (some j) (fun j0 hj0 => ?_) j' hj'
    obtain rfl := Option.some.inj hj0
    exact hlt
  · rw [productionTick_advance catalog v g j ns c hc hlt]
    exact ⟨rfl, rfl⟩

theorem manualEdit_clamped_witness :
    manualEdit CONTENT_TYPES (some ⟨"vlog", 50, 0⟩) =
      some ⟨"vlog", min (50 + (1 / 2) / vlogContent.duration * 100) (999 / 10), 0⟩ ∧
    (productionTick CONTENT_TYPES false (defaultGameState 0) ⟨"vlog", 50, 0⟩ []).1 =
      defaultGameState 0 := by
  have h := manualEdit_clamped CONTENT_TYPES ⟨"vlog", 50, 0⟩ vlogContent rfl
  exact ⟨h.1, (h.2.2.2 false (defaultGameState 0) [] (by norm_num)).1⟩

lemma find_vlog :
    CONTENT_TYPES.find? (fun c => c.id = "vlog") = some vlogContent := rfl

lemma tickStep_some (catalog : List ContentType) (v : Bool) (g : GameState)
    (av : ActiveVideo) (ns : List String) :
    tickStep catalog v (g, some av, ns) = productionTick catalog v g av ns := rfl

lemma runTicks_none (catalog : List ContentType) (v : Bool) (k : ℕ) :
    ∀ (g : GameState) (ns : List String),
      runTicks catalog v k (g, none, ns) = (g, none, ns) := by
  induction k with
  | zero => intro g ns; rfl
  | succ n ih =>
    intro g ns
    rw [show runTicks catalog v (n + 1) (g, none, ns) =
        runTicks catalog v n (tickStep catalog v (g, none, ns)) from rfl]
    exact ih g ns

lemma runTicks_add (catalog : List ContentType) (v : Bool) (a : ℕ) :
    ∀ (b : ℕ) (s : ProdState),
      runTicks catalog v (a + b) s = runTicks catalog v a (runTicks catalog v b s) := by
  intro b
  induction b with
  | zero => intro s; rfl
  | succ n ih =>
    intro s
    rw [Nat.add_succ]
    rw [show runTicks catalog v ((a + n) + 1) s =
        runTicks catalog v (a + n) (tickStep catalog v s) from rfl]
    rw [show runTicks catalog v (n + 1) s =
        runTicks catalog v n (tickStep catalog v s) from rfl]
    exact ih (tickStep catalog v s)

lemma runTicks_succ_right (catalog : List ContentType) (v : Bool) (n : ℕ) :
    ∀ s : ProdState, runTicks catalog v (n + 1) s =
      tickStep catalog v (runTicks catalog v n s) := by
  induction n with
  | zero => intro s; rfl
  | succ m ih =>
    intro s
    rw [show runTicks catalog v (m + 1 + 1) s =
        runTicks catalog v (m + 1) (tickStep catalog v s) from rfl]
    rw [ih (tickStep catalog v s)]
    rw [show runTicks catalog v (m + 1) s =
        runTicks catalog v m (tickStep catalog v s) from rfl]

lemma tick_progress (g : GameState) (ns : List String) (t : ℕ) (p : ℚ)
    (hp : p < 100) :
    tickStep CONTENT_TYPES false (g, some ⟨"vlog", p, t⟩, ns) =
      (g, some ⟨"vlog", min (p + 1 / 6) 100, t⟩, ns) := by
  rw [tickStep_some]
  rw [productionTick_advance CONTENT_TYPES false g ⟨"vlog", p, t⟩ ns vlogContent rfl hp]
  have hstep : (1 : ℚ) / 10 / vlogContent.duration * 100 = 1 / 6 := by
    norm_num [vlogContent]
  rw [hstep]

lemma runTicks_progress (g : GameState) (ns : List String) (t : ℕ) (k : ℕ) :
    ∀ p : ℚ, p + k * (1 / 6) ≤ 100 →
      runTicks CONTENT_TYPES false k (g, some ⟨"vlog", p, t⟩, ns) =
        (g, some ⟨"vlog", p + k * (1 / 6), t⟩, ns) := by
  induction k with
  | zero =>
    intro p hp
    rw [show runTicks CONTENT_TYPES false 0 (g, some ⟨"vlog", p, t⟩, ns) =
      (g, some ⟨"vlog", p, t⟩, ns) from rfl]
    norm_num
  | succ n ih =>
    intro p hp
    have hcast : ((n + 1 : ℕ) : ℚ) = (n : ℚ) + 1 := by push_cast; ring
    rw [hcast] at hp
    have hn0 : (0 : ℚ) ≤ (n : ℚ) * (1 / 6) := by positivity
    have hn6 : (p + 1 / 6) + (n : ℚ) * (1 / 6) ≤ 100 := by linarith
    have hplt : p < 100 := by linarith
    rw [show runTicks CONTENT_TYPES false (n + 1) (g, some ⟨"vlog", p, t⟩, ns) =
        runTicks CONTENT_TYPES false n
          (tickStep CONTENT_TYPES false (g, some ⟨"vlog", p, t⟩, ns)) from rfl]
    rw [tick_progress g ns t p hplt]
    rw [min_eq_left (by linarith : p + 1 / 6 ≤ 100)]
    rw [ih (p + 1 / 6) hn6]
    rw [show p + 1 / 6 + (n : ℚ) * (1 / 6) = p + ((n + 1 : ℕ) : ℚ) * (1 / 6) by
      rw [hcast]; ring]

lemma startProd_eq :
    startProd = (defaultGameState 0, some ⟨"vlog", 0, 0⟩, []) := rfl

lemma run600_eq :
    runTicks CONTENT_TYPES false 600 startProd =
      (defaultGameState 0, some ⟨"vlog", 100, 0⟩, []) := by
  rw [startProd_eq]
  rw [runTicks_progress (defaultGameState 0) [] 0 600 0 (by norm_num)]
  norm_num

lemma getPassiveViews_default : getPassiveViews (defaultGameState 0) = 0 := by
  simp +decide [getPassiveViews, defaultGameState, INITIAL_UPGRADES, cameraUpgrade]

lemma getPassiveSubs_default : getPassiveSubs (defaultGameState 0) = 0 := by
  simp +decide [getPassiveSubs, defaultGameState, INITIAL_UPGRADES, cameraUpgrade]

lemma getMoneyMultiplier_default : getMoneyMultiplier (defaultGameState 0) = 1 := by
  simp +decide [getMoneyMultiplier, defaultGameState, INITIAL_UPGRADES, cameraUpgrade]

lemma run601_eq :
    (runTicks CONTENT_TYPES false 601 startProd).1.views = 100 ∧
    (runTicks CONTENT_TYPES false 601 startProd).2.1 = none ∧
    (runTicks CONTENT_TYPES false 601 startProd).2.2.length = 1 := by
  have h601 : runTicks CONTENT_TYPES false 601 startProd =
      productionTick CONTENT_TYPES false (defaultGameState 0) ⟨"vlog", 100, 0⟩ [] := by
    rw [runTicks_succ_right CONTENT_TYPES false 600 startProd, run600_eq, tickStep_some]
  rw [h601]
  rw [productionTick_complete CONTENT_TYPES false (defaultGameState 0)
    ⟨"vlog", 100, 0⟩ [] vlogContent rfl (by norm_num)]
  refine ⟨?_, rfl, rfl⟩
  show (defaultGameState 0).views + completionViews (defaultGameState 0) vlogContent false = 100
  rw [completionViews, getPassiveViews_default]
  norm_num [defaultGameState, vlogContent, viralBoost]

/-- C7 counterexample: after scheduler advances whose dt values sum to the
content duration (600 ticks of 0.1 s for the 60 s vlog), progress is exactly
100 but no completion credit has been committed, no notification has been
enqueued, and the job has not returned to Idle — the credit only happens on
the next tick. -/
theorem advance_sum_duration_cex :
    (runTicks CONTENT_TYPES false 600 startProd).1.views = 0 ∧
    (runTicks CONTENT_TYPES false 600 startProd).2.2 = [] ∧
    (runTicks CONTENT_TYPES false 600 startProd).2.1 = some ⟨"vlog", 100, 0⟩ := by
  rw [run600_eq]
  exact ⟨rfl, rfl, rfl⟩

/-- C7 (amended): starting the vlog from Idle, ticks whose dt values sum to
the duration drive progress from 0 to exactly 100 (no credit yet); one
further scheduler tick observing `progress >= 100` then commits exactly one
completion credit and one notification, the ledger gains exactly 100 views
(duration 60 s, baseViews 100, no upgrades, viral inactive), the job returns
to Idle, and subsequent ticks change nothing. -/
theorem advance_completion_one_tick_later :
    (runTicks CONTENT_TYPES false 600 startProd).2.1 = some ⟨"vlog", 100, 0⟩ ∧
    (runTicks CONTENT_TYPES false 601 startProd).1.views = 100 ∧
    (runTicks CONTENT_TYPES false 601 startProd).2.1 = none ∧
    (runTicks CONTENT_TYPES false 601 startProd).2.2.length = 1 ∧
    runTicks CONTENT_TYPES false 700 startProd =
      runTicks CONTENT_TYPES false 601 startProd := by
  obtain ⟨hviews, hnone, hlen⟩ := run601_eq
  refine ⟨by rw [run600_eq], hviews, hnone, hlen, ?_⟩
  rcases h : runTicks CONTENT_TYPES false 601 startProd with ⟨g1, av1, ns1⟩
  rw [h] at hnone
  simp only at hnone
  subst hnone
  rw [show (700 : ℕ) = 99 + 601 by norm_num]
  rw [runTicks_add CONTENT_TYPES false 99 601 startProd]
  rw [h]
  exact runTicks_none CONTENT_TYPES false 99 g1 ns1

/-- C9: on load, absent persisted state and corrupt persisted state (whose
parse throws and is caught) both fall back to the fixed initial state —
views 0, subscribers 0, currency 0, every upgrade at level 0, and the single
default unlocked content id `vlog`; the initializer always returns a state,
so the fallback is never fatal. -/
theorem load_fallback (now : ℕ) :
    loadState none now = defaultGameState now ∧
    loadState (some none) now = defaultGameState now ∧
    (defaultGameState now).views = 0 ∧
    (defaultGameState now).subscribers = 0 ∧
    (defaultGameState now).money = 0 ∧
    (defaultGameState now).upgrades.all (fun u => u.level = 0) = true ∧
    (defaultGameState now).unlockedContentTypes = ["vlog"] :=
  ⟨rfl, rfl, rfl, rfl, rfl, rfl, rfl⟩

theorem load_fallback_witness :
    loadState none 7 = defaultGameState 7 ∧
    loadState (some none) 7 = defaultGameState 7 ∧
    (defaultGameState 7).views = 0 ∧
    (defaultGameState 7).subscribers = 0 ∧
    (defaultGameState 7).money = 0 ∧
    (defaultGameState 7).upgrades.all (fun u => u.level = 0) = true ∧
    (defaultGameState 7).unlockedContentTypes = ["vlog"] :=
  load_fallback 7

lemma scoreUpdate_no_match (userId : ℕ) (s v : ℚ) :
    ∀ db : List UserRow, db.all (fun u => u.id != userId) = true →
      db.map (fun u =>
        if u.id = userId then { u with subscribers := s, views := v } else u) = db := by
  intro db
  induction db with
  | nil => intro _; rfl
  | cons a l ih =>
    intro h
    rw [List.all_cons, Bool.and_eq_true] at h
    have ha : ¬ a.id = userId := by simpa using h.1
    rw [List.map_cons, if_neg ha, ih h.2]

/-- C10: the `/api/score/update` handler responds `success: true` for every
request, including when the given user id matches no row — the UPDATE then
affects zero rows and the table is unchanged; the endpoint never reports
failure to the client. -/
theorem score_update_always_success (db : List UserRow) (userId : ℕ)
    (subscribers views : ℚ) :
    (scoreUpdate db userId subscribers views).2 = true ∧
    (db.all (fun u => u.id != userId) = true →
      (scoreUpdate db userId subscribers views).1 = db) :=
  ⟨rfl, fun h => scoreUpdate_no_match userId subscribers views db h⟩

/-- A sample table row for the score endpoint. -/
def aliceRow : UserRow :=
  { id := 1, username := "alice", password := "pw", subscribers := 0, views := 0 }

theorem score_update_always_success_witness :
    (scoreUpdate [aliceRow] 2 5 7).2 = true ∧
    (scoreUpdate [aliceRow] 2 5 7).1 = [aliceRow] :=
  ⟨(score_update_always_success [aliceRow] 2 5 7).1,
   (score_update_always_success [aliceRow] 2 5 7).2 (by rfl)⟩

end TubeSim
